import Mathlib

/-!
Verification of the selftest unit-testing header (src/selftest.hpp).

The development shallowly embeds the core of the header:

* `failType` — the closed enum of failure categories (selftest.hpp:289-297);
* `Exc` — the values a C++ `throw` inside this library's world can carry:
  the three exception classes the header defines or uses
  (`std::invalid_argument`, `selftest::selftest_error`,
  `selftest::over_reasonable_limit`), the payload-free
  `selftest::terminate_unittest` signal, plus thrown C strings, other
  `std::exception`s and arbitrary foreign values (such as the thrown `42`
  in the repository's own test file);
* `composeMessage`/`thrower` — the condition signaler (selftest.hpp:333-393);
  effects are made explicit: `thrower` returns the lines it writes to
  `std::cerr` together with the exception it raises (`none` would model the
  final `return;` statement, a normal return);
* `callUnitTest` — the per-test wrapper (selftest.hpp:408-451); a test
  function is modelled by its observable `TestOutcome`: it either returns
  normally after a measured wall-clock elapsed time, or raises an `Exc`
  (the elapsed time is carried in both cases so that one can state that
  the code never consults it when the function raises).  The result is
  `Except Exc (Bool × List String)`: an `.error` result would mean an
  exception escaped every catch clause of `callUnitTest`;
* `registerTests`/`reverseLoop`/`runLoop`/`runUnitTestsImpl`/`runUnitTests`
  — registration by head insertion (UnitTest constructor,
  selftest.hpp:396-406) and the runner (selftest.hpp:453-492), with an
  explicit invocation log recording each call of a test function in order;
* the `CHECKIF`/`CHECKIFTHROWS` macro bodies (selftest.hpp:259-267).
-/

namespace Selftest

/-- The closed set of failure categories: `enum class failType`
(selftest.hpp:289-297). -/
inductive failType where
  | badarg
  | badassert
  | badselftest
  | badunittest
  | overlimit
deriving DecidableEq, Repr

/-- Values a `throw` can carry in the embedded world.  The first three mirror
the concrete exception classes thrown by `thrower`; `terminateUnittest`
mirrors the payload-free `class terminate_unittest {}`; `cstr` a thrown
`const char*`; `otherStd` any other class derived from `std::exception`
(its `what()` message is the payload); `unknown` any other thrown value,
such as the `throw 42` of testception.cpp. -/
inductive Exc where
  | invalidArgument (msg : String)
  | selftestError (msg : String)
  | overLimit (msg : String)
  | terminateUnittest
  | cstr (msg : String)
  | otherStd (msg : String)
  | unknown
deriving DecidableEq, Repr

/-- Exceptions caught by `catch (const std::exception&)`:
`std::invalid_argument`, `selftest_error` (a `std::logic_error`),
`over_reasonable_limit` (a `std::runtime_error`) and any other
`std::exception`; not the `terminate_unittest` signal, thrown C strings or
foreign values. -/
def isStdException : Exc → Bool
  | .invalidArgument _ => true
  | .selftestError _ => true
  | .overLimit _ => true
  | .otherStd _ => true
  | _ => false

/-- The label `thrower` appends for each failure category
(selftest.hpp:348-364). -/
def ftLabel : failType → String
  | .badarg => "Argument test"
  | .badassert => "Assertion"
  | .badselftest => "Self test"
  | .badunittest => "Unit test"
  | .overlimit => "Reasonable limit"

/-- The diagnostic message composed by `thrower` (selftest.hpp:340-371).
`none` models a null `const char*`; the C++ guard `if (fileName && lineNum)`
emits the `<file>:<line>:0: error: ` prefix only when the file name pointer is
non-null AND the line number is non-zero.  Groupings of `++` mirror the
incremental `+=` of the source. -/
def composeMessage (ft : failType) (failedPredicate function fileName : Option String)
    (lineNum : Nat) : String :=
  let message :=
    match fileName with
    | some f => if lineNum ≠ 0 then f ++ ":" ++ (toString lineNum ++ (":0: error: ")) else ""
    | none => ""
  let message := message ++ ftLabel ft
  let message :=
    match failedPredicate with
    | some p => message ++ (" '" ++ (p ++ "'"))
    | none => message
  let message := message ++ " failed"
  let message :=
    match function with
    | some fn => message ++ (" in " ++ fn)
    | none => message
  message ++ "."

/-- The condition signaler `thrower` (selftest.hpp:333-393).  Returns the
lines written to `std::cerr` and the exception raised; `none` in the second
component would model reaching the trailing `return;`, i.e. a normal return,
which happens only if the `switch` falls through every case. -/
def thrower (ft : failType) (failedPredicate function fileName : Option String)
    (lineNum : Nat) : List String × Option Exc :=
  let message := composeMessage ft failedPredicate function fileName lineNum
  match ft with
  | .badarg => ([], some (.invalidArgument message))
  | .badassert => ([], some (.selftestError message))
  | .badselftest => ([], some (.selftestError message))
  | .badunittest => ([message], some .terminateUnittest)
  | .overlimit => ([], some (.overLimit message))

/-- Observable behaviour of one invocation of a registered test function:
either it returns normally after `elapsedMs` milliseconds of wall-clock time,
or it raises the exception `e` after `elapsedMs` milliseconds.  The elapsed
time is carried in both cases so the embedding can show that `callUnitTest`
never consults it when the function raises. -/
inductive TestOutcome where
  | normal (elapsedMs : Nat)
  | raised (elapsedMs : Nat) (e : Exc)
deriving DecidableEq, Repr

/-- `const int time_limit_seconds = 2;` (selftest.hpp:411). -/
def time_limit_seconds : Nat := 2

/-- The line `callUnitTest` prints when a test exceeds the time limit
(selftest.hpp:421-422). -/
def timeoutLine (tfname : String) : String :=
  "Unit test " ++ tfname ++ (" not complete within " ++
    (toString time_limit_seconds ++ " seconds."))

/-- The line printed for a thrown `const char*` (selftest.hpp:434-437). -/
def cstrLine (tfname msg : String) : String :=
  "Exception thrown during unit test '" ++ tfname ++ ("': \"" ++ (msg ++ "\"."))

/-- The line printed for a caught `std::exception` with `what()` message `msg`
(selftest.hpp:439-442). -/
def stdExcLine (tfname msg : String) : String :=
  "Exception thrown during unit test '" ++ tfname ++ ("': " ++ (msg ++ "."))

/-- The line printed by the `catch (...)` clause (selftest.hpp:444-447). -/
def unknownLine (tfname : String) : String :=
  "Exception of unknown type thrown during unit test '" ++ tfname ++ "'."

/-- `UnitTest::callUnitTest` (selftest.hpp:408-451).  Returns the lines the
wrapper itself writes to `std::cerr` and the `failedTest` flag; an `.error`
result would mean the exception escaped every catch clause (the clauses
handle, in order, `terminate_unittest`, `const char*`, `std::exception`, and
everything else via `catch (...)`).  The elapsed-time comparison
`duration > std::chrono::seconds(2)` happens only after `testfunc_()` has
returned normally. -/
def callUnitTest (tfname : String) (outcome : TestOutcome) :
    Except Exc (Bool × List String) :=
  match outcome with
  | .normal elapsedMs =>
      if time_limit_seconds * 1000 < elapsedMs then
        .ok (true, [timeoutLine tfname])
      else
        .ok (false, [])
  | .raised _ e =>
      match e with
      | .terminateUnittest => .ok (true, [])
      | .cstr m => .ok (true, [cstrLine tfname m])
      | .invalidArgument m => .ok (true, [stdExcLine tfname m])
      | .selftestError m => .ok (true, [stdExcLine tfname m])
      | .overLimit m => .ok (true, [stdExcLine tfname m])
      | .otherStd m => .ok (true, [stdExcLine tfname m])
      | .unknown => .ok (true, [unknownLine tfname])

/-- A registered test: the display name passed to the `UnitTest` constructor
and the observable behaviour of its test function. -/
structure TestCase where
  tfname : String
  outcome : TestOutcome
deriving DecidableEq, Repr

/-- `struct FailRatio` (selftest.hpp:301-304); the C++ counters are `int`s
that only ever start at 0 and get incremented, so `Nat` is faithful. -/
structure FailRatio where
  numFailedTests : Nat
  numTests : Nat
deriving DecidableEq, Repr

/-- Registration (the `UnitTest` constructor, selftest.hpp:396-406): each
`TEST_FUNCTION`, in declaration order, pushes its node onto the head of the
process-wide list, so the registry head chain holds the tests in reverse
declaration order. -/
def registerTests (ts : List TestCase) : List TestCase :=
  ts.foldl (fun head t => t :: head) []

/-- The list-reversal `while` loop of `runUnitTestsImpl`
(selftest.hpp:458-469): `oldHead` is the retrieved registry, `newHead` the
accumulator. -/
def reverseLoop : List TestCase → List TestCase → List TestCase
  | [], newHead => newHead
  | t :: oldHead, newHead => reverseLoop oldHead (t :: newHead)

/-- The execution `while` loop of `runUnitTestsImpl` (selftest.hpp:475-482).
`invoked` logs the name of each test function as it is called, in order;
`out` accumulates the diagnostic lines the wrapper prints.  If
`callUnitTest` let an exception escape, the loop would abort with `.error`
before counting the test (`++rc.numTests` happens after the call returns). -/
def runLoop : List TestCase → FailRatio → List String → List String →
    Except Exc (FailRatio × List String × List String)
  | [], rc, invoked, out => .ok (rc, invoked, out)
  | t :: rest, rc, invoked, out =>
      match callUnitTest t.tfname t.outcome with
      | .ok (failedTest, lines) =>
          runLoop rest
            ⟨rc.numFailedTests + (if failedTest then 1 else 0), rc.numTests + 1⟩
            (invoked ++ [t.tfname]) (out ++ lines)
      | .error e => .error e

/-- `UnitTest::runUnitTestsImpl` (selftest.hpp:453-486): constructing the
sentinel hands back the current head chain and resets the registry; the chain
is reversed in one pass and every test is run under containment. -/
def runUnitTestsImpl (head : List TestCase) :
    Except Exc (FailRatio × List String × List String) :=
  runLoop (reverseLoop head []) ⟨0, 0⟩ [] []

/-- `selftest::runUnitTests()` (selftest.hpp:489-492) applied to the registry
built by registering `ts` in declaration order. -/
def runUnitTests (ts : List TestCase) :
    Except Exc (FailRatio × List String × List String) :=
  runUnitTestsImpl (registerTests ts)

/-- The exception classes a `catch (const E&)` clause can name in this
library's world: the three concrete classes plus the bases `std::exception`,
`std::logic_error` and `std::runtime_error`, and the `terminate_unittest`
signal class. -/
inductive ExcClass where
  | invalidArgumentC
  | selftestErrorC
  | overLimitC
  | terminateC
  | stdExceptionC
  | logicErrorC
  | runtimeErrorC
deriving DecidableEq, Repr

/-- C++ catch-clause matching: `catch (const E&)` handles an exception whose
dynamic type is `E` or derives from `E` (`selftest_error` derives from
`std::logic_error`, `over_reasonable_limit` from `std::runtime_error`,
`std::invalid_argument` from `std::logic_error`, all of these from
`std::exception`). -/
def catches : ExcClass → Exc → Bool
  | .invalidArgumentC, .invalidArgument _ => true
  | .selftestErrorC, .selftestError _ => true
  | .overLimitC, .overLimit _ => true
  | .terminateC, .terminateUnittest => true
  | .stdExceptionC, e => isStdException e
  | .logicErrorC, .invalidArgument _ => true
  | .logicErrorC, .selftestError _ => true
  | .runtimeErrorC, .overLimit _ => true
  | _, _ => false

/-- Outcome of evaluating the expression argument of `CHECKIFTHROWS`: either
it produces a value normally, or it raises `e`. -/
inductive ExprOutcome where
  | value
  | raises (e : Exc)
deriving DecidableEq, Repr

/-- The `CHECKIFTHROWS(X, E)` macro body (selftest.hpp:263-267): `X` is
evaluated in a `try`; `catch (const E&)` sets `caught_expected`; an exception
not matching the clause propagates out of the macro at once; if nothing
expected was caught, `UNITTEST_FAIL(#X " should throw " #E)` feeds
`thrower` with kind `badunittest` and the call-site context.  Returns the
lines printed inside the macro and the exception leaving it, if any. -/
def checkIfThrows (x : ExprOutcome) (eclass : ExcClass)
    (xText eText func fileName : String) (lineNum : Nat) :
    List String × Option Exc :=
  match x with
  | .raises e => if catches eclass e then ([], none) else ([], some e)
  | .value =>
      thrower .badunittest (some (xText ++ (" should throw " ++ eText)))
        (some func) (some fileName) lineNum

/-- Observable behaviour of a test function whose body is a single
`CHECKIFTHROWS(X, E)` (elapsed time negligible, taken as 0 ms). -/
def checkIfThrowsBody (x : ExprOutcome) (eclass : ExcClass)
    (xText eText func fileName : String) (lineNum : Nat) : TestOutcome :=
  match (checkIfThrows x eclass xText eText func fileName lineNum).2 with
  | some e => .raised 0 e
  | none => .normal 0

/-- One `CHECKIF(X)` statement of a test body: the value of its predicate and
a tag naming the statement, used to log which statements of the body actually
executed (a side-effect log). -/
structure CheckStep where
  pred : Bool
  tag : String
deriving DecidableEq, Repr

/-- Run a test body made of successive `CHECKIF` statements
(selftest.hpp:259): each statement whose predicate holds falls through to the
next; the first false predicate triggers `UNITTEST_FAIL(#X)`, i.e. `thrower`
with kind `badunittest`, which throws and aborts the body, so no later
statement runs.  Returns the tags of the statements that executed, the lines
printed from inside the body, and the exception aborting it, if any. -/
def runChecks (func fileName : String) (lineNum : Nat) :
    List CheckStep → List String × List String × Option Exc
  | [] => ([], [], none)
  | c :: rest =>
      if c.pred then
        let r := runChecks func fileName lineNum rest
        (c.tag :: r.1, r.2)
      else
        let r := thrower .badunittest (some c.tag) (some func) (some fileName) lineNum
        ([c.tag], r.1, r.2)

/-- Observable behaviour of a test function whose body is the given list of
`CHECKIF` statements (elapsed time negligible, taken as 0 ms). -/
def checksBody (func fileName : String) (lineNum : Nat)
    (cs : List CheckStep) : TestOutcome :=
  match (runChecks func fileName lineNum cs).2.2 with
  | some e => .raised 0 e
  | none => .normal 0

/-- The `failedTest` flag `callUnitTest` hands back when it contains the
invocation (`true` by convention if the exception were to escape, which the
containment lemma rules out). -/
def callFailed (tfname : String) (o : TestOutcome) : Bool :=
  match callUnitTest tfname o with
  | .ok r => r.1
  | .error _ => true

/-- The diagnostic lines `callUnitTest` writes when it contains the
invocation. -/
def callOut (tfname : String) (o : TestOutcome) : List String :=
  match callUnitTest tfname o with
  | .ok r => r.2
  | .error _ => []

/-- Number of tests in the list whose contained invocation reports failure. -/
def countFailed : List TestCase → Nat
  | [] => 0
  | t :: rest => (if callFailed t.tfname t.outcome then 1 else 0) + countFailed rest

/-- Concatenated diagnostic lines the runner writes while executing the
list. -/
def outputsOf : List TestCase → List String
  | [] => []
  | t :: rest => callOut t.tfname t.outcome ++ outputsOf rest

/-- Containment: `callUnitTest` never lets an exception escape — its four
catch clauses (`terminate_unittest`, `const char*`, `std::exception`,
`catch (...)`) cover every possible thrown value. -/
lemma callUnitTest_eq_ok (n : String) (o : TestOutcome) :
    callUnitTest n o = .ok (callFailed n o, callOut n o) := by
  cases o with
  | normal d =>
      by_cases h : time_limit_seconds * 1000 < d <;>
        simp [callUnitTest, callFailed, callOut, h]
  | raised d e => cases e <;> rfl

/-- Any raised value makes the contained invocation report failure. -/
lemma callFailed_raised (n : String) (d : Nat) (e : Exc) :
    callFailed n (.raised d e) = true := by
  cases e <;> rfl

/-- The reversal loop of `runUnitTestsImpl` computes list reversal. -/
lemma reverseLoop_eq (l acc : List TestCase) :
    reverseLoop l acc = l.reverse ++ acc := by
  induction l generalizing acc with
  | nil => simp [reverseLoop]
  | cons t rest ih => simp [reverseLoop, ih]

/-- Head insertion over a declaration-order list yields the reversed list. -/
lemma registerTests_eq (ts : List TestCase) :
    registerTests ts = ts.reverse := by
  suffices h : ∀ acc : List TestCase,
      ts.foldl (fun head t => t :: head) acc = ts.reverse ++ acc by
    simp [registerTests, h []]
  induction ts with
  | nil => intro acc; simp
  | cons t rest ih => intro acc; simp [List.foldl_cons, ih]

/-- Complete characterisation of the execution loop: it never aborts, counts
every test, logs every invocation in order, and tallies failures. -/
lemma runLoop_spec (l : List TestCase) :
    ∀ (rc : FailRatio) (invoked out : List String),
      runLoop l rc invoked out = .ok
        (⟨rc.numFailedTests + countFailed l, rc.numTests + l.length⟩,
         invoked ++ l.map TestCase.tfname, out ++ outputsOf l) := by
  induction l with
  | nil => intro rc invoked out; simp [runLoop, countFailed, outputsOf]
  | cons t rest ih =>
      intro rc invoked out
      simp only [runLoop, callUnitTest_eq_ok]
      rw [ih]
      simp [countFailed, outputsOf, Nat.add_assoc, Nat.add_comm 1 rest.length,
        List.append_assoc]

/-- The full run pipeline on a declaration-order list of tests. -/
lemma runUnitTests_eq (ts : List TestCase) :
    runUnitTests ts =
      .ok (⟨countFailed ts, ts.length⟩, ts.map TestCase.tfname, outputsOf ts) := by
  have h := runLoop_spec ts ⟨0, 0⟩ [] []
  simpa [runUnitTests, runUnitTestsImpl, registerTests_eq, reverseLoop_eq] using h

/-- A body of `CHECKIF` statements whose prefix all hold and whose next
statement fails: exactly the prefix and the failing statement execute, the
failing one routes its stringified predicate through `thrower` with kind
`badunittest`, and the body aborts with the `terminate_unittest` signal. -/
lemma runChecks_spec (func fl : String) (ln : Nat) :
    ∀ (pre : List CheckStep), (∀ a ∈ pre, a.pred = true) →
      ∀ (c : CheckStep) (rest : List CheckStep), c.pred = false →
        runChecks func fl ln (pre ++ c :: rest) =
          (pre.map CheckStep.tag ++ [c.tag],
           [composeMessage .badunittest (some c.tag) (some func) (some fl) ln],
           some .terminateUnittest) := by
  intro pre
  induction pre with
  | nil =>
      intro _ c rest hc
      simp [runChecks, hc, thrower]
  | cons a pre' ih =>
      intro hpre c rest hc
      have ha : a.pred = true := hpre a (by simp)
      have hpre' : ∀ b ∈ pre', b.pred = true := fun b hb => hpre b (by simp [hb])
      simp [runChecks, ha, ih hpre' c rest hc]

/-- C1 (per-test containment): whatever a test function raises — the
`terminate_unittest` signal, a `std::exception` carrying a message, a raw C
string, or a value of any other type — `callUnitTest` catches it locally,
returns the Failed flag `true`, and reports it on the diagnostic stream
(empty output exactly for the signal, whose message `thrower` already
printed); the runner consequently still executes and counts every registered
test, whatever the outcomes of the earlier ones. -/
theorem callUnitTest_contains_every_exception (n : String) (d : Nat) (e : Exc)
    (ts : List TestCase) :
    callUnitTest n (.raised d e) = .ok (true, callOut n (.raised d e)) ∧
    (callOut n (.raised d e) = [] ↔ e = .terminateUnittest) ∧
    (∃ out, runUnitTests ts =
      .ok (⟨countFailed ts, ts.length⟩, ts.map TestCase.tfname, out)) := by
  refine ⟨?_, ?_, ⟨outputsOf ts, runUnitTests_eq ts⟩⟩
  · rw [callUnitTest_eq_ok, callFailed_raised]
  · cases e <;> simp [callOut, callUnitTest]

/-- C2 (declaration order and totals): a single `runUnitTests` call over any
declaration-order sequence of `N` registered tests returns `numTests = N`,
and the invocation log shows every test function called exactly once, in
declaration order — head insertion at registration is undone by the runner's
single reversal pass. -/
theorem runUnitTests_counts_and_order (ts : List TestCase) :
    runUnitTests ts =
      .ok (⟨countFailed ts, ts.length⟩, ts.map TestCase.tfname, outputsOf ts) :=
  runUnitTests_eq ts

/-- C3 (thrower always raises, kind determines type): for every failure kind
and any combination of context fields, `thrower` raises — the `switch` covers
every kind and the trailing `return` is unreachable — and the raised value is
`std::invalid_argument` for badarg, `selftest_error` for badassert and
badselftest alike, `over_reasonable_limit` for overlimit, and the
`terminate_unittest` signal for badunittest, all mutually distinct
exception types. -/
theorem thrower_never_returns (ft : failType) (p fn fl : Option String) (ln : Nat) :
    ((thrower ft p fn fl ln).2).isSome = true ∧
    (thrower ft p fn fl ln).2 = some (
      match ft with
      | .badarg => .invalidArgument (composeMessage ft p fn fl ln)
      | .badassert => .selftestError (composeMessage ft p fn fl ln)
      | .badselftest => .selftestError (composeMessage ft p fn fl ln)
      | .badunittest => .terminateUnittest
      | .overlimit => .overLimit (composeMessage ft p fn fl ln)) ∧
    (∀ m m' : String, Exc.invalidArgument m ≠ Exc.selftestError m' ∧
      Exc.overLimit m ≠ Exc.selftestError m' ∧
      Exc.overLimit m ≠ Exc.invalidArgument m' ∧
      Exc.terminateUnittest ≠ Exc.invalidArgument m ∧
      Exc.terminateUnittest ≠ Exc.selftestError m ∧
      Exc.terminateUnittest ≠ Exc.overLimit m) := by
  refine ⟨by cases ft <;> rfl, by cases ft <;> rfl, ?_⟩
  intro m m'
  refine ⟨by simp, by simp, by simp, by simp, by simp, by simp⟩

/-- C4 (badunittest protocol): `thrower` with kind badunittest first prints
the composed message to the diagnostic stream and then raises the payload-free
`terminate_unittest` signal; when a test function raises that signal the
runner marks the test Failed, prints nothing further, and does not propagate
it past the per-test boundary. -/
theorem thrower_badunittest_prints_then_raises (p fn fl : Option String)
    (ln : Nat) (n : String) (d : Nat) :
    thrower .badunittest p fn fl ln =
      ([composeMessage .badunittest p fn fl ln], some .terminateUnittest) ∧
    callUnitTest n (.raised d .terminateUnittest) = .ok (true, []) :=
  ⟨rfl, rfl⟩

/-- C5 (CHECKIFTHROWS semantics): a test whose body is
`CHECKIFTHROWS(expr, E)` passes exactly when evaluating `expr` raises an
exception that the `catch (const E&)` clause handles; if `expr` raises
nothing the check fails the test (via the badunittest signal), and if it
raises an exception of a different kind that exception escapes the macro and
the test also fails. -/
theorem checkIfThrows_pass_iff (n : String) (x : ExprOutcome) (ec : ExcClass)
    (xt et func fl : String) (ln : Nat) :
    callUnitTest n (checkIfThrowsBody x ec xt et func fl ln) = .ok (false, []) ↔
      ∃ e, x = .raises e ∧ catches ec e = true := by
  constructor
  · intro h
    cases x with
    | value =>
        exfalso
        simp [checkIfThrowsBody, checkIfThrows, thrower, callUnitTest] at h
    | raises e =>
        by_cases hc : catches ec e
        · exact ⟨e, rfl, hc⟩
        · exfalso
          have hb : checkIfThrowsBody (.raises e) ec xt et func fl ln =
              .raised 0 e := by
            simp [checkIfThrowsBody, checkIfThrows, hc]
          rw [hb, callUnitTest_eq_ok, callFailed_raised] at h
          simp at h
  · rintro ⟨e, rfl, hc⟩
    simp [checkIfThrowsBody, checkIfThrows, hc, callUnitTest, time_limit_seconds]

/-- C6 (corrected): `thrower` echoes the composed message to the diagnostic
stream for the badunittest kind only; for badarg, badassert and overlimit it
raises without printing — the function contains no build-configuration switch
at all, so no debug/tracing configuration makes it print-then-raise for those
kinds. -/
theorem thrower_echo_policy (ft : failType) (p fn fl : Option String) (ln : Nat) :
    (thrower ft p fn fl ln).1 =
      (if ft = .badunittest then [composeMessage ft p fn fl ln] else []) := by
  cases ft <;> rfl

/-- C6 counterexample: at concrete call sites of each of the three kinds the
claim says are echoed in a debug/tracing build, `thrower` writes nothing at
all to the diagnostic stream before raising. -/
theorem thrower_badarg_echoes_nothing :
    (thrower .badarg (some "index>0") (some "fizzbuzz") (some "demo.cpp") 27).1 = [] ∧
    (thrower .badassert (some "res.length()>0") (some "fizzbuzz") (some "demo.cpp") 46).1 = [] ∧
    (thrower .overlimit (some "Too much Fizz") (some "fizzbuzz") (some "demo.cpp") 29).1 = [] :=
  ⟨rfl, rfl, rfl⟩

/-- C7 (first failing check aborts, counted once): in a test body whose
prefix of CHECKIF statements all hold and whose next statement fails — with
at least one more failing statement after it — exactly the prefix and the
first failing statement execute (nothing after it runs), and the test
contributes exactly 1 to `numFailedTests`. -/
theorem multiple_failing_checks_counted_once (name func fl : String) (ln : Nat)
    (pre rest : List CheckStep) (c d : CheckStep)
    (hpre : ∀ a ∈ pre, a.pred = true) (hc : c.pred = false)
    (_hd : d ∈ rest) (_hdf : d.pred = false) :
    (runChecks func fl ln (pre ++ c :: rest)).1 =
      pre.map CheckStep.tag ++ [c.tag] ∧
    runUnitTests [⟨name, checksBody func fl ln (pre ++ c :: rest)⟩] =
      .ok (⟨1, 1⟩, [name], []) := by
  have hrun := runChecks_spec func fl ln pre hpre c rest hc
  refine ⟨by rw [hrun], ?_⟩
  have hbody : checksBody func fl ln (pre ++ c :: rest) =
      .raised 0 .terminateUnittest := by
    simp [checksBody, hrun]
  rw [runUnitTests_eq]
  simp [countFailed, outputsOf, hbody, callFailed, callOut, callUnitTest]

/-- C7 witness: the `multiple_failures` scenario of testception.cpp — one
passing check, then two failing ones: only the first failing check runs and
the test counts once. -/
theorem multiple_failing_checks_counted_once_witness :
    (runChecks "body_fn" "testception.cpp" 48
        [⟨true, "setup"⟩, ⟨false, "first_intentional_failure"⟩,
         ⟨false, "continues_after_failure"⟩]).1 =
      ["setup", "first_intentional_failure"] ∧
    runUnitTests [⟨"multiple_failures",
        checksBody "body_fn" "testception.cpp" 48
          [⟨true, "setup"⟩, ⟨false, "first_intentional_failure"⟩,
           ⟨false, "continues_after_failure"⟩]⟩] =
      .ok (⟨1, 1⟩, ["multiple_failures"], []) := by
  have h := multiple_failing_checks_counted_once "multiple_failures" "body_fn"
    "testception.cpp" 48 [⟨true, "setup"⟩] [⟨false, "continues_after_failure"⟩]
    ⟨false, "first_intentional_failure"⟩ ⟨false, "continues_after_failure"⟩
    (by simp) rfl (by simp) rfl
  simpa using h

/-- C8 (post-hoc two-second limit): a test function that returns normally
after more than 2 wall-clock seconds is reported to the diagnostic stream and
marked Failed without aborting the run: it still counts 1 toward `numTests`,
and every test registered after it still runs. -/
theorem slow_test_failed_after_the_fact (n : String) (d : Nat)
    (rest : List TestCase) (h : time_limit_seconds * 1000 < d) :
    callUnitTest n (.normal d) = .ok (true, [timeoutLine n]) ∧
    timeoutLine "fifth_and_final_intentional_failure" =
      "Unit test fifth_and_final_intentional_failure not complete within 2 seconds." ∧
    runUnitTests (⟨n, .normal d⟩ :: rest) =
      .ok (⟨1 + countFailed rest, 1 + rest.length⟩,
        n :: rest.map TestCase.tfname, timeoutLine n :: outputsOf rest) := by
  refine ⟨by simp [callUnitTest, h], by rfl, ?_⟩
  rw [runUnitTests_eq]
  simp [countFailed, outputsOf, callFailed, callOut, callUnitTest, h,
    Nat.add_comm]

/-- C8 witness: the 3-second sleeper of testception.cpp is contained, marked
Failed with the timeout report, and counted. -/
theorem slow_test_failed_after_the_fact_witness :
    time_limit_seconds * 1000 < 3000 ∧
    callUnitTest "fifth_and_final_intentional_failure" (.normal 3000) =
      .ok (true, [timeoutLine "fifth_and_final_intentional_failure"]) :=
  ⟨by decide,
   (slow_test_failed_after_the_fact "fifth_and_final_intentional_failure"
      3000 [] (by decide)).1⟩

/-- C9 (message format): for every kind and every combination of
present/absent context fields the composed message follows
`<file>:<line>:0: error: <KindLabel> '<predicateText>' failed in <functionName>.`,
each absent field dropping exactly its own fragment — including the case of a
present file name with line number 0, which the C++ guard
`if (fileName && lineNum)` also treats as absent — with the five kind labels
as documented. -/
theorem composeMessage_format (ft : failType) (p fn fl : String) (ln : Nat)
    (h : ln ≠ 0) :
    composeMessage ft (some p) (some fn) (some fl) ln =
      fl ++ ":" ++ (toString ln ++ ":0: error: ") ++ ftLabel ft ++
        (" '" ++ (p ++ "'")) ++ " failed" ++ (" in " ++ fn) ++ "." ∧
    composeMessage ft none (some fn) (some fl) ln =
      fl ++ ":" ++ (toString ln ++ ":0: error: ") ++ ftLabel ft ++ " failed" ++
        (" in " ++ fn) ++ "." ∧
    composeMessage ft (some p) none (some fl) ln =
      fl ++ ":" ++ (toString ln ++ ":0: error: ") ++ ftLabel ft ++
        (" '" ++ (p ++ "'")) ++ " failed" ++ "." ∧
    composeMessage ft (some p) (some fn) none ln =
      ftLabel ft ++ (" '" ++ (p ++ "'")) ++ " failed" ++ (" in " ++ fn) ++ "." ∧
    composeMessage ft (some p) (some fn) (some fl) 0 =
      ftLabel ft ++ (" '" ++ (p ++ "'")) ++ " failed" ++ (" in " ++ fn) ++ "." ∧
    composeMessage ft none none none ln = ftLabel ft ++ " failed" ++ "." ∧
    (ftLabel .badarg = "Argument test" ∧ ftLabel .badassert = "Assertion" ∧
     ftLabel .badselftest = "Self test" ∧ ftLabel .badunittest = "Unit test" ∧
     ftLabel .overlimit = "Reasonable limit") := by
  refine ⟨?_, ?_, ?_, by rfl, by rfl, by rfl,
    by rfl, by rfl, by rfl, by rfl, by rfl⟩ <;>
    simp [composeMessage, h]

/-- C9 witness: a fully populated verbose-mode assertion message. -/
theorem composeMessage_format_witness :
    (27 : Nat) ≠ 0 ∧
    composeMessage .badassert (some "res.length()>0") (some "fizzbuzz")
        (some "demo.cpp") 27 =
      "demo.cpp:27:0: error: Assertion 'res.length()>0' failed in fizzbuzz." := by
  refine ⟨by decide, ?_⟩
  have h := (composeMessage_format .badassert "res.length()>0" "fizzbuzz"
    "demo.cpp" 27 (by decide)).1
  rw [h]
  rfl

/-- C10 (implicit — time check only on normal return): the elapsed-time
comparison happens only when the test function returns normally, so a raising
test is reported solely as an exception failure: the result of
`callUnitTest` is independent of how long the raising test actually ran, and
its diagnostic output is never the over-time report. -/
theorem raised_skips_time_check (n : String) (d d2 : Nat) (e : Exc) :
    callUnitTest n (.raised d e) = callUnitTest n (.raised d2 e) ∧
    callUnitTest n (.raised d e) = .ok (true, callOut n (.raised 0 e)) ∧
    callOut n (.raised d e) ≠ [timeoutLine n] := by
  refine ⟨by cases e <;> rfl, ?_, ?_⟩
  · have h0 : callOut n (.raised d e) = callOut n (.raised 0 e) := by
      cases e <;> rfl
    rw [callUnitTest_eq_ok, callFailed_raised, h0]
  · cases e with
    | terminateUnittest => simp [callOut, callUnitTest]
    | cstr m =>
        intro h
        have h2 : cstrLine n m = timeoutLine n := by
          simpa [callOut, callUnitTest] using h
        have hd := congrArg String.data h2
        simp [cstrLine, timeoutLine, String.data_append] at hd
    | unknown =>
        intro h
        have h2 : unknownLine n = timeoutLine n := by
          simpa [callOut, callUnitTest] using h
        have hd := congrArg String.data h2
        simp [unknownLine, timeoutLine, String.data_append] at hd
    | invalidArgument m =>
        intro h
        have h2 : stdExcLine n m = timeoutLine n := by
          simpa [callOut, callUnitTest] using h
        have hd := congrArg String.data h2
        simp [stdExcLine, timeoutLine, String.data_append] at hd
    | selftestError m =>
        intro h
        have h2 : stdExcLine n m = timeoutLine n := by
          simpa [callOut, callUnitTest] using h
        have hd := congrArg String.data h2
        simp [stdExcLine, timeoutLine, String.data_append] at hd
    | overLimit m =>
        intro h
        have h2 : stdExcLine n m = timeoutLine n := by
          simpa [callOut, callUnitTest] using h
        have hd := congrArg String.data h2
        simp [stdExcLine, timeoutLine, String.data_append] at hd
    | otherStd m =>
        intro h
        have h2 : stdExcLine n m = timeoutLine n := by
          simpa [callOut, callUnitTest] using h
        have hd := congrArg String.data h2
        simp [stdExcLine, timeoutLine, String.data_append] at hd

end Selftest
